import Mathlib

/-!
Shallow Lean model of models/PhueAPI.py: the Bridge session with its registries
of Light, Group and Scene entities, the constructor config handling, the device
load protocol and the entity mutators. Python dicts, which preserve insertion
order, are modelled as association lists; calls handed to the HTTP layer are
modelled by returning the list of issued requests; raised exceptions are
modelled with Option and Except.
-/

namespace PhueAPI

/-- The exception classes declared at the top of PhueAPI.py. -/
inductive PhueErr where
  | UnauthorizedUser
  | LinkButtonNotPressed
  | NoPhueIP
  | NoPhueBridgeFound
  | IPNotPhueBridge
  | PhueRegistrationError
  | PhueRequestError
  | SelectorError
  | NoSuchLight
  | NoSuchGroup
  | NoSuchScene
  | NoSuchSceneInGroup
  | NoSuchSceneInLight
  | LightNotReachable
  deriving DecidableEq

/-- Lookup in an insertion-ordered association list (a Python dict): the value
at the first entry whose key matches. -/
def alistFind {κ α : Type} [DecidableEq κ] : List (κ × α) → κ → Option α
  | [], _ => none
  | (k0, v0) :: rest, k => if k0 = k then some v0 else alistFind rest k

/-- Python dict assignment d[k] = v: overwrite the entry in place when the key
is present, append a fresh entry otherwise. -/
def alistInsert {κ α : Type} [DecidableEq κ] : List (κ × α) → κ → α → List (κ × α)
  | [], k, v => [(k, v)]
  | (k0, v0) :: rest, k, v =>
    if k0 = k then (k, v) :: rest else (k0, v0) :: alistInsert rest k v

/-- In-place mutation of the object stored at a key (Python object mutation
through a reference obtained from the dict). -/
def alistModify {κ α : Type} [DecidableEq κ] : List (κ × α) → κ → (α → α) → List (κ × α)
  | [], _, _ => []
  | (k0, v0) :: rest, k, f =>
    if k0 = k then (k0, f v0) :: rest else (k0, v0) :: alistModify rest k f

/-- Middle element of the sorted integer triple, as in the idiom
sorted((lo, v, hi))[1] used by the setters: for lo less or equal hi this is v
clamped to the closed interval from lo to hi. -/
def sortedMiddle (lo v hi : Int) : Int := max lo (min v hi)

/-- Rational variant of sortedMiddle, for the CIE xy coordinates. -/
def sortedMiddleQ (lo v hi : Rat) : Rat := max lo (min v hi)

/-- Python url.startswith of a single slash. -/
def slashPrefixed (url : String) : Bool := url.data.head? = some '/'

/-- Python str.lower on the ASCII names occurring here: character-wise lower
casing. -/
def pyLower (s : String) : String := ⟨s.data.map Char.toLower⟩

/-- A JSON body handed to the request layer; one constructor per payload shape
occurring in the source. -/
inductive ReqBody where
  | onVal (b : Bool)
  | bri (v : Int)
  | sat (v : Int)
  | hue (v : Int)
  | xy (x y : Rat)
  | ct (v : Int)
  | alert (s : String)
  | effect (s : String)
  | colormode (s : String)
  | name (s : String)
  | scene (s : String)
  | empty
  deriving DecidableEq

/-- One call handed to Bridge.sendAuthRequest: the url suffix below the
credential segment, the HTTP method and the JSON body. -/
structure Request where
  url : String
  method : String
  data : ReqBody
  deriving DecidableEq

/-- The entries of the Python light state dict that the claims read or write.
Absent dict keys are modelled only where some code path depends on key absence,
which is the case for colormode alone. -/
structure LightState where
  onKey : Bool := false
  bri : Int := 0
  sat : Int := 0
  hue : Int := 0
  xy : Rat × Rat := (0, 0)
  ct : Int := 0
  colormode : Option String := none
  reachable : Bool := false
  deriving DecidableEq

/-- The Light dataclass. The swupdate, capabilities and config dicts carry no
behaviour in the source and are omitted; bridge, a back reference used only to
gate and route requests, is modelled by its presence flag. -/
structure Light where
  state : LightState := {}
  type : String := ""
  name : String := ""
  modelid : String := ""
  manufacturername : String := ""
  productname : String := ""
  uniqueid : String := ""
  swversion : String := ""
  id : Int := 0
  hasBridge : Bool := false
  myScenes : List String := []
  deriving DecidableEq

/-- Light.request: raises LightNotReachable when the light is unreachable or
has no bridge, before any network activity; otherwise forwards exactly one
call, returned here as a singleton list. -/
def Light.request (l : Light) (url : String) (method : String) (data : ReqBody) :
    Option PhueErr × List Request :=
  if !l.state.reachable || !l.hasBridge then (some PhueErr.LightNotReachable, [])
  else
    (none, [⟨if slashPrefixed url then "/lights" ++ url else "/lights/" ++ url, method, data⟩])

/-- Light.on in the source, renamed because on is reserved in Lean: a PUT of
an on body to the state path; no local state change. -/
def Light.turnOn (l : Light) : Option PhueErr × Light × List Request :=
  let r := l.request ("/" ++ toString l.id ++ "/state") "PUT" (ReqBody.onVal true)
  (r.1, l, r.2)

/-- Light.off: a PUT of an off body to the state path; no local state change. -/
def Light.off (l : Light) : Option PhueErr × Light × List Request :=
  let r := l.request ("/" ++ toString l.id ++ "/state") "PUT" (ReqBody.onVal false)
  (r.1, l, r.2)

/-- Light.alert. -/
def Light.alert (l : Light) (st : String) : Option PhueErr × Light × List Request :=
  let r := l.request ("/" ++ toString l.id ++ "/state") "PUT" (ReqBody.alert st)
  (r.1, l, r.2)

/-- Light.effect. -/
def Light.effect (l : Light) (ef : String) : Option PhueErr × Light × List Request :=
  let r := l.request ("/" ++ toString l.id ++ "/state") "PUT" (ReqBody.effect ef)
  (r.1, l, r.2)

/-- Light brightness setter: zero is special cased to off followed by caching a
zero brightness, where a raise from off propagates before the cache write; a
nonzero value is clamped, cached and then sent. -/
def Light.setBrightness (l : Light) (value : Int) : Option PhueErr × Light × List Request :=
  if value = 0 then
    match l.off with
    | (some e, l2, reqs) => (some e, l2, reqs)
    | (none, l2, reqs) => (none, { l2 with state := { l2.state with bri := 0 } }, reqs)
  else
    let value := sortedMiddle 1 value 254
    let l := { l with state := { l.state with bri := value } }
    let r := l.request ("/" ++ toString l.id ++ "/state") "PUT" (ReqBody.bri value)
    (r.1, l, r.2)

/-- Light saturation setter: clamp, cache, send. -/
def Light.setSaturation (l : Light) (value : Int) : Option PhueErr × Light × List Request :=
  let value := sortedMiddle 1 value 254
  let l := { l with state := { l.state with sat := value } }
  let r := l.request ("/" ++ toString l.id ++ "/state") "PUT" (ReqBody.sat value)
  (r.1, l, r.2)

/-- Light hue setter: clamp, cache, send. -/
def Light.setHue (l : Light) (value : Int) : Option PhueErr × Light × List Request :=
  let value := sortedMiddle 0 value 65535
  let l := { l with state := { l.state with hue := value } }
  let r := l.request ("/" ++ toString l.id ++ "/state") "PUT" (ReqBody.hue value)
  (r.1, l, r.2)

/-- Light xy setter: both coordinates are clamped and cached, but the PUT body
carries the original argument pair, exactly as in the source, where the request
line sends value rather than the clamped x and y. -/
def Light.setXY (l : Light) (value : Rat × Rat) : Option PhueErr × Light × List Request :=
  let x := sortedMiddleQ 0 value.1 1
  let y := sortedMiddleQ 0 value.2 1
  let l := { l with state := { l.state with xy := (x, y) } }
  let r := l.request ("/" ++ toString l.id ++ "/state") "PUT" (ReqBody.xy value.1 value.2)
  (r.1, l, r.2)

/-- Light mired setter: cache then send, no clamping. -/
def Light.setMired (l : Light) (value : Int) : Option PhueErr × Light × List Request :=
  let l := { l with state := { l.state with ct := value } }
  let r := l.request ("/" ++ toString l.id ++ "/state") "PUT" (ReqBody.ct value)
  (r.1, l, r.2)

/-- Light colormode setter: when the state dict has no colormode key the source
logs a warning and returns without raising and without any request; otherwise
an invalid mode is coerced to ct, cached and sent. -/
def Light.setColormode (l : Light) (mode : String) : Option PhueErr × Light × List Request :=
  match l.state.colormode with
  | none => (none, l, [])
  | some _ =>
    let mode := if mode = "hs" ∨ mode = "xy" ∨ mode = "ct" then mode else "ct"
    let l := { l with state := { l.state with colormode := some mode } }
    let r := l.request ("/" ++ toString l.id ++ "/state") "PUT" (ReqBody.colormode mode)
    (r.1, l, r.2)

/-- Light.delete: a DELETE of the light resource with an empty body. -/
def Light.delete (l : Light) : Option PhueErr × Light × List Request :=
  let r := l.request ("/" ++ toString l.id) "DELETE" ReqBody.empty
  (r.1, l, r.2)

/-- The two aggregate flags of the Python group state dict. -/
structure GroupState where
  any_on : Bool := false
  all_on : Bool := false
  deriving DecidableEq

/-- The entries of the Python group action dict that the claims touch. -/
structure GroupAction where
  bri : Int := 0
  sat : Int := 0
  hue : Int := 0
  deriving DecidableEq

/-- The Group dataclass; bridge is modelled by its presence flag, and the
stream and locations dicts, unused by any behaviour, are omitted. -/
structure Group where
  name : String := ""
  lights : List String := []
  sensors : List String := []
  type : String := ""
  state : GroupState := {}
  recycle : Bool := false
  action : GroupAction := {}
  clazz : String := ""
  id : Int := 0
  hasBridge : Bool := false
  myScenes : List String := []
  deriving DecidableEq

/-- Group.request: returns without any network call when no bridge is set,
otherwise forwards exactly one call to Bridge.sendAuthRequest; the issued
calls are the returned list. -/
def Group.request (g : Group) (url : String) (method : String) (data : ReqBody) :
    List Request :=
  if g.hasBridge then
    [⟨if slashPrefixed url then "/groups" ++ url else "/groups/" ++ url, method, data⟩]
  else []

/-- Group.off: sets both aggregate flags to false locally, then issues the off
PUT on the action path. -/
def Group.off (g : Group) : Group × List Request :=
  let g := { g with state := { g.state with any_on := false, all_on := false } }
  (g, g.request ("/" ++ toString g.id ++ "/action") "PUT" (ReqBody.onVal false))

/-- Group.on in the source, renamed because on is reserved in Lean: sets both
aggregate flags to true locally, then issues the on PUT on the action path. -/
def Group.turnOn (g : Group) : Group × List Request :=
  let g := { g with state := { g.state with any_on := true, all_on := true } }
  (g, g.request ("/" ++ toString g.id ++ "/action") "PUT" (ReqBody.onVal true))

/-- Group brightness setter: zero is special cased to off followed by caching a
zero brightness; a nonzero value is clamped, cached and then sent. -/
def Group.setBrightness (g : Group) (value : Int) : Group × List Request :=
  if value = 0 then
    let r := g.off
    ({ r.1 with action := { r.1.action with bri := 0 } }, r.2)
  else
    let value := sortedMiddle 1 value 254
    let g := { g with action := { g.action with bri := value } }
    (g, g.request ("/" ++ toString g.id ++ "/action") "PUT" (ReqBody.bri value))

/-- One element of a bridge response array as inspected by Group.rename: none
models an element without a success key; otherwise the entries of the success
object. -/
abbrev RenameAnswer : Type := Option (List (String × String))

/-- The lookup done by the rename loop on one answer: requires a success key
and then the per group name key inside it. -/
def ackLookup (a : RenameAnswer) (key : String) : Option String :=
  match a with
  | none => none
  | some kvs => alistFind kvs key

/-- The for loop of Group.rename over the response array: answers without an
acknowledgment of the name field are skipped; on the first acknowledgment the
three way case split of the source runs. The issued compensating calls are
collected in the third component. -/
def renameLoop (g : Group) (newName : String) (allow : Bool) :
    List RenameAnswer → Group × Bool × List Request
  | [] => (g, false, [])
  | a :: rest =>
    match ackLookup a ("/groups/" ++ toString g.id ++ "/name") with
    | none => renameLoop g newName allow rest
    | some ackName =>
      if ackName = newName then ({ g with name := newName }, true, [])
      else if allow then ({ g with name := ackName }, true, [])
      else (g, false, g.request ("/" ++ toString g.id) "PUT" (ReqBody.name g.name))

/-- Group.rename: issues the rename PUT; a falsy response, modelled by a none
resp argument, yields false. Otherwise the response array is scanned by
renameLoop. Without a bridge, Group.request returns no response and no call is
made, and the falsy check yields false. -/
def Group.rename (g : Group) (newName : String) (allow : Bool)
    (resp : Option (List RenameAnswer)) : Group × Bool × List Request :=
  if g.hasBridge then
    let initReqs := g.request ("/" ++ toString g.id) "PUT" (ReqBody.name newName)
    match resp with
    | none => (g, false, initReqs)
    | some answers =>
      let r := renameLoop g newName allow answers
      (r.1, r.2.1, initReqs ++ r.2.2)
  else (g, false, [])

/-- The Scene dataclass; the metadata fields owner, locked, appdata, picture,
lastupdated, version and image carry no behaviour and are omitted. The lights
list and the group field are stored after the int conversion applied by
loadDevices. -/
structure Scene where
  name : String := ""
  type : String := ""
  lights : List Int := []
  recycle : Bool := false
  group : Int := 0
  id : String := ""
  hasBridge : Bool := false
  deriving DecidableEq

/-- The Bridge object: connection fields and the three registries. The conf
file handling of the constructor is modelled separately by bridgeInitConf. -/
structure Bridge where
  ip : String := ""
  deviceName : String := "phuepython"
  username : String := ""
  connected : Bool := false
  groups : List (Int × Group) := []
  lights : List (Int × Light) := []
  scenes : List (String × Scene) := []
  deriving DecidableEq

/-- The scan over dict values used by the name branch of the lookups: first
entry, in insertion order, whose projected name equals the query. -/
def scanByName {κ α : Type} (nameOf : α → String) : List (κ × α) → String → Option α
  | [], _ => none
  | (_, x) :: rest, nm => if nameOf x = nm then some x else scanByName nameOf rest nm

/-- Bridge.light: with id zero and an empty name, SelectorError; with id zero
and a name, an exact scan over the values; otherwise an id lookup. -/
def Bridge.light (b : Bridge) (lightId : Int) (lightName : String) : Except PhueErr Light :=
  if lightId = 0 ∧ lightName = "" then Except.error PhueErr.SelectorError
  else if lightId = 0 then
    match scanByName Light.name b.lights lightName with
    | some l => Except.ok l
    | none => Except.error PhueErr.NoSuchLight
  else
    match alistFind b.lights lightId with
    | some l => Except.ok l
    | none => Except.error PhueErr.NoSuchLight

/-- Bridge.group: a nonempty name selects the exact scan branch; otherwise an
id lookup with the given id, the zero default included, with no check that a
selector was supplied. -/
def Bridge.group (b : Bridge) (groupId : Int) (groupName : String) : Except PhueErr Group :=
  if groupName ≠ "" then
    match scanByName Group.name b.groups groupName with
    | some g => Except.ok g
    | none => Except.error PhueErr.NoSuchGroup
  else
    match alistFind b.groups groupId with
    | some g => Except.ok g
    | none => Except.error PhueErr.NoSuchGroup

/-- Bridge.scene: with an empty id and an empty name, SelectorError; with an
empty id, an exact scan over the values; otherwise an id lookup. -/
def Bridge.scene (b : Bridge) (sceneId : String) (sceneName : String) : Except PhueErr Scene :=
  if sceneId = "" ∧ sceneName = "" then Except.error PhueErr.SelectorError
  else if sceneId = "" then
    match scanByName Scene.name b.scenes sceneName with
    | some s => Except.ok s
    | none => Except.error PhueErr.NoSuchScene
  else
    match alistFind b.scenes sceneId with
    | some s => Except.ok s
    | none => Except.error PhueErr.NoSuchScene

/-- One entry of the parsed groups response; the key collision shim of the
source renames the class field to clazz before construction, so the field is
carried here under clazz directly. -/
structure GroupJson where
  name : String := ""
  lights : List String := []
  sensors : List String := []
  type : String := ""
  state : GroupState := {}
  recycle : Bool := false
  action : GroupAction := {}
  clazz : String := ""
  deriving DecidableEq

/-- One entry of the parsed lights response. -/
structure LightJson where
  state : LightState := {}
  type : String := ""
  name : String := ""
  modelid : String := ""
  manufacturername : String := ""
  productname : String := ""
  uniqueid : String := ""
  swversion : String := ""
  deriving DecidableEq

/-- One entry of the parsed scenes response. The type key may be absent, which
the source checks; lights entries and the group field are given after the int
conversion the source applies at use sites. -/
structure SceneJson where
  name : String := ""
  type? : Option String := none
  lights : List Int := []
  recycle : Bool := false
  group : Int := 0
  deriving DecidableEq

/-- Group construction during load: Group with the response fields followed by
init, which sets the id, the bridge reference and lower-cases the name. -/
def mkGroup (gid : Int) (d : GroupJson) : Group :=
  { name := pyLower d.name, lights := d.lights, sensors := d.sensors, type := d.type,
    state := d.state, recycle := d.recycle, action := d.action, clazz := d.clazz,
    id := gid, hasBridge := true, myScenes := [] }

/-- Light construction during load: Light with the response fields followed by
init, which sets the id, the bridge reference and lower-cases the name. -/
def mkLight (lid : Int) (d : LightJson) : Light :=
  { state := d.state, type := d.type, name := pyLower d.name, modelid := d.modelid,
    manufacturername := d.manufacturername, productname := d.productname,
    uniqueid := d.uniqueid, swversion := d.swversion,
    id := lid, hasBridge := true, myScenes := [] }

/-- Scene construction during load: Scene with the response fields followed by
init, which sets the id, the bridge reference and lower-cases the name. -/
def mkScene (sid : String) (d : SceneJson) : Scene :=
  { name := pyLower d.name, type := d.type?.getD "", lights := d.lights,
    recycle := d.recycle, group := d.group, id := sid, hasBridge := true }

/-- The per response for loop of the load phases: insert the constructed
entity at each key of the answer dict, in order. -/
def insertAll {κ α β : Type} [DecidableEq κ] (mk : κ → β → α) :
    List (κ × α) → List (κ × β) → List (κ × α)
  | m, [] => m
  | m, (k, d) :: rest => insertAll mk (alistInsert m k (mk k d)) rest

/-- The append of a scene id to the myScenes of the light stored at a key. -/
def appendSceneToLight (m : List (Int × Light)) (lid : Int) (sid : String) :
    List (Int × Light) :=
  alistModify m lid (fun l => { l with myScenes := l.myScenes ++ [sid] })

/-- The append of a scene id to the myScenes of the group stored at a key. -/
def appendSceneToGroup (m : List (Int × Group)) (gid : Int) (sid : String) :
    List (Int × Group) :=
  alistModify m gid (fun g => { g with myScenes := g.myScenes ++ [sid] })

/-- The inner for loop of the LightScene cross-linking: for each referenced
light id, Bridge.light is called and the scene id appended to the myScenes of
the found light; a NoSuchLight raise is swallowed, any other raise escapes. -/
def linkLights (b : Bridge) (sid : String) : List Int → Except PhueErr Bridge
  | [] => Except.ok b
  | lid :: rest =>
    match b.light lid "" with
    | Except.ok _ =>
      linkLights { b with lights := appendSceneToLight b.lights lid sid } sid rest
    | Except.error PhueErr.NoSuchLight => linkLights b sid rest
    | Except.error e => Except.error e

/-- The body of the scenes for loop of loadDevices for one response entry:
construct and insert the scene, then cross-link it. A GroupScene is appended
to the myScenes of the group found by Bridge.group, a NoSuchGroup raise being
swallowed; a LightScene not named Last on state is linked light by light. -/
def linkScene (b : Bridge) (sid : String) (d : SceneJson) : Except PhueErr Bridge :=
  let b1 : Bridge := { b with scenes := alistInsert b.scenes sid (mkScene sid d) }
  match d.type? with
  | none => Except.ok b1
  | some ty =>
    if ty = "GroupScene" then
      match b1.group d.group "" with
      | Except.ok _ =>
        Except.ok { b1 with groups := appendSceneToGroup b1.groups d.group sid }
      | Except.error PhueErr.NoSuchGroup => Except.ok b1
      | Except.error e => Except.error e
    else if ty = "LightScene" ∧ d.name ≠ "Last on state" then
      linkLights b1 sid d.lights
    else Except.ok b1

/-- The scenes for loop of loadDevices over the whole response. -/
def loadScenes (b : Bridge) : List (String × SceneJson) → Except PhueErr Bridge
  | [] => Except.ok b
  | (sid, d) :: rest =>
    match linkScene b sid d with
    | Except.ok b2 => loadScenes b2 rest
    | Except.error e => Except.error e

/-- The synthetic group zero inserted first by loadDevices: a fresh Group,
init with id zero and the bridge, then named everywhere with neutral state. -/
def group0 : Group :=
  { name := "everywhere", state := { all_on := false, any_on := false },
    id := 0, hasBridge := true }

/-- Bridge.loadDevices. The three fetches are modelled by their parsed
responses, a none response standing for a falsy request object. Group zero is
inserted first; each fetched group and light is inserted over whatever the
registries already hold, with no clearing; the scenes fetch runs only when the
lights request was truthy. -/
def loadDevices (b : Bridge) (groupsResp : Option (List (Int × GroupJson)))
    (lightsResp : Option (List (Int × LightJson)))
    (scenesResp : List (String × SceneJson)) : Except PhueErr Bridge :=
  let b1 : Bridge := { b with groups := alistInsert b.groups 0 group0 }
  let b2 : Bridge :=
    match groupsResp with
    | none => b1
    | some ans => { b1 with groups := insertAll mkGroup b1.groups ans }
  match lightsResp with
  | none => Except.ok b2
  | some ans => loadScenes { b2 with lights := insertAll mkLight b2.lights ans } scenesResp

/-- The stored conf file content, a JSON object with an ip and a username. -/
structure ConfData where
  ip : String
  username : String
  deriving DecidableEq

/-- The connection fields of the constructor after the conf block ran, plus
whether the conf file was unlinked. An absent ip, the Python None default, is
modelled by the empty string, which the source treats identically under its
truthiness tests. -/
structure InitState where
  ip : String
  username : String
  confFileDeleted : Bool
  deriving DecidableEq

/-- Path.unlink raises when the file is already gone. -/
inductive FileErr where
  | fileNotFound
  deriving DecidableEq

/-- One unlink call on the conf file. -/
def unlinkConf (s : InitState) : Except FileErr InitState :=
  if s.confFileDeleted then Except.error FileErr.fileNotFound
  else Except.ok { s with confFileDeleted := true }

/-- The conf block of the Bridge constructor. With no stored conf nothing
happens. Otherwise: a supplied ip differing from the stored ip unlinks the
file, an absent ip is filled from the store; then a supplied username is
compared against the stored ip, exactly as in the source, which reads the ip
key in the username branch, and a difference unlinks the file, while an
absent username is filled from the store. -/
def bridgeInitConf (ip username : String) (conf : Option ConfData) :
    Except FileErr InitState :=
  match conf with
  | none => Except.ok ⟨ip, username, false⟩
  | some c =>
    let s : InitState := ⟨ip, username, false⟩
    let step1 : Except FileErr InitState :=
      if ip ≠ "" ∧ ip ≠ c.ip then unlinkConf s
      else if ip = "" then Except.ok { s with ip := c.ip }
      else Except.ok s
    match step1 with
    | Except.error e => Except.error e
    | Except.ok s2 =>
      if username ≠ "" ∧ username ≠ c.ip then unlinkConf s2
      else if username = "" then Except.ok { s2 with username := c.username }
      else Except.ok s2

/-- A bridge response body as inspected by errorReturned and successReturned:
either a JSON array of objects or some non list value. Each object is
abstracted to whether it holds an error key and whether it holds a success
key. -/
structure JObj where
  hasError : Bool := false
  hasSuccess : Bool := false
  deriving DecidableEq

/-- A response body: a JSON array or anything else. -/
inductive JAnswer where
  | arr (elems : List JObj)
  | nonList
  deriving DecidableEq

/-- Bridge.errorReturned: the conjunction short circuits on a non list, and on
a list indexes element zero, which on an empty list raises IndexError,
modelled by none. -/
def errorReturned (answer : JAnswer) : Option Bool :=
  match answer with
  | JAnswer.nonList => some false
  | JAnswer.arr [] => none
  | JAnswer.arr (e :: _) => some e.hasError

/-- Bridge.successReturned, same shape as errorReturned. -/
def successReturned (answer : JAnswer) : Option Bool :=
  match answer with
  | JAnswer.nonList => some false
  | JAnswer.arr [] => none
  | JAnswer.arr (e :: _) => some e.hasSuccess

/-- A Bridge with empty registries, for concrete evaluations. -/
def emptyBridge : Bridge := {}

/-- A group left in the registry by an earlier load. -/
def staleGroup : Group := { name := "old", id := 5, hasBridge := true }

/-- A bridge whose registry still holds the stale group. -/
def bridgeWithStale : Bridge := { groups := [(5, staleGroup)] }

/-- The registry after reloading bridgeWithStale against a bridge that reports
no groups, no lights and no scenes. -/
def loadedStale : Bridge := { groups := [(5, staleGroup), (0, group0)] }

/-- A lights response entry whose name carries an upper case letter. -/
def kitchenJson : LightJson := { name := "Kitchen", state := { reachable := true } }

/-- The bridge obtained by loading kitchenJson as light one into an empty
registry. -/
def bridgeKitchen : Bridge :=
  { groups := [(0, group0)], lights := [(1, mkLight 1 kitchenJson)] }

/-- A reachable color light, for evaluating the xy setter. -/
def xyLight : Light :=
  { state := { reachable := true, colormode := some "xy" }, id := 1,
    hasBridge := true, name := "desk" }

/-- An unreachable light whose state dict has no colormode key. -/
def unreachLight : Light :=
  { state := { reachable := false, colormode := none, bri := 100 }, id := 2,
    hasBridge := true, name := "cellar" }

/-- A reachable light with a bridge, for evaluating the brightness setter. -/
def brightLight : Light :=
  { state := { reachable := true, bri := 10 }, id := 3, hasBridge := true,
    name := "desk" }

/-- A group with a bridge, for evaluating the brightness setter. -/
def brightGroup : Group :=
  { name := "den", id := 4, hasBridge := true, action := { bri := 10 } }

/-- A scenes response entry of type LightScene referencing light id zero. -/
def sceneZeroLight : SceneJson :=
  { name := "mood", type? := some "LightScene", lights := [0] }

/-- A scenes response entry of type GroupScene referencing an absent group. -/
def orphanGroupScene : SceneJson :=
  { name := "movie", type? := some "GroupScene", group := 7 }

/-- A group with a bridge, for evaluating rename. -/
def renameGroup : Group := { name := "den", id := 3, hasBridge := true }

/-- A rename response whose first element has no success key and whose second
element acknowledges the name field of group three. -/
def renameAnswers : List RenameAnswer :=
  [none, some [("/groups/3/name", "tv room")]]

/-- A light stored under an already lower case name. -/
def sofaLight : Light := { name := "sofa", id := 1 }

theorem alistFind_insert {κ α : Type} [DecidableEq κ] (m : List (κ × α)) (k k2 : κ) (v : α) :
    alistFind (alistInsert m k v) k2 = if k2 = k then some v else alistFind m k2 := by
  induction m with
  | nil =>
    by_cases h : k2 = k
    · subst h; simp [alistInsert, alistFind]
    · have h2 : ¬ k = k2 := fun hh => h hh.symm
      simp [alistInsert, alistFind, h, h2]
  | cons hd tl ih =>
    obtain ⟨k0, v0⟩ := hd
    by_cases h0 : k0 = k
    · subst h0
      by_cases h2 : k2 = k0
      · subst h2; simp [alistInsert, alistFind]
      · have h3 : ¬ k0 = k2 := fun hh => h2 hh.symm
        simp [alistInsert, alistFind, h2, h3]
    · by_cases h2 : k0 = k2
      · subst h2
        simp [alistInsert, alistFind, h0]
      · simp [alistInsert, alistFind, h0, h2, ih]

theorem alistFind_modify {κ α : Type} [DecidableEq κ] (m : List (κ × α)) (k k2 : κ)
    (f : α → α) :
    alistFind (alistModify m k f) k2 =
      if k2 = k then (alistFind m k).map f else alistFind m k2 := by
  induction m with
  | nil => simp [alistModify, alistFind]
  | cons hd tl ih =>
    obtain ⟨k0, v0⟩ := hd
    by_cases h0 : k0 = k
    · subst h0
      by_cases h2 : k2 = k0
      · subst h2; simp [alistModify, alistFind]
      · have h3 : ¬ k0 = k2 := fun hh => h2 hh.symm
        simp [alistModify, alistFind, h2, h3]
    · by_cases h2 : k0 = k2
      · subst h2
        simp [alistModify, alistFind, h0]
      · simp [alistModify, alistFind, h0, h2, ih]

/-- C10: on the empty array response both errorReturned and successReturned
index element zero without guarding emptiness, modelled by the none result,
so neither predicate returns false there; on a non list both are defined and
return false. -/
theorem C10_theorem :
    errorReturned (JAnswer.arr []) = none ∧
    successReturned (JAnswer.arr []) = none ∧
    (none : Option Bool) ≠ some false ∧
    errorReturned JAnswer.nonList = some false ∧
    successReturned JAnswer.nonList = some false := by
  refine ⟨rfl, rfl, ?_, rfl, rfl⟩
  intro h
  cases h

/-- C2, behaviour at the failing input: the constructor is given no ip and the
username alice while the stored conf pairs the ip 192.168.1.2 with the very
same username alice. The claim requires the conf file to be kept, since the
supplied username equals the stored username; the code instead compares the
supplied username against the stored ip and unlinks the file. -/
theorem C2_code_behavior :
    bridgeInitConf "" "alice" (some ⟨"192.168.1.2", "alice"⟩) =
      Except.ok ⟨"192.168.1.2", "alice", true⟩ := by
  rfl

/-- C5, behaviour at the failing input: assigning the pair of coordinates two
and minus one clamps the cached xy to one and zero, but the PUT body carries
the unclamped pair, contradicting the claim that clamping is applied to the
transmitted value. -/
theorem C5_code_behavior :
    Light.setXY xyLight (2, -1) =
      (none,
       { xyLight with state := { xyLight.state with xy := (1, 0) } },
       [⟨"/lights/1/state", "PUT", ReqBody.xy 2 (-1)⟩]) := by
  rfl

/-- C3, counterexample: group called with neither id nor name on an empty
registry raises NoSuchGroup, not the selector error the claim requires for
all three lookups. -/
theorem C3_counterexample :
    Bridge.group emptyBridge 0 "" = Except.error PhueErr.NoSuchGroup ∧
    PhueErr.NoSuchGroup ≠ PhueErr.SelectorError := by
  refine ⟨rfl, ?_⟩
  intro h
  cases h

/-- C1, counterexample: reloading a registry that holds group five against a
bridge reporting no groups, no lights and no scenes leaves group five in the
registry, so an entry present before the call and absent from the response
survives loadDevices. -/
theorem C1_counterexample :
    loadDevices bridgeWithStale (some []) (some []) [] = Except.ok loadedStale ∧
    alistFind loadedStale.groups 5 = some staleGroup := by
  exact ⟨rfl, rfl⟩

/-- C8, counterexample: a LightScene not named Last on state that references
light id zero makes the cross-linking call light with id zero and no name,
which raises SelectorError; only NoSuchLight is caught, so the exception
escapes loadDevices instead of the unknown id being silently skipped. -/
theorem C8_counterexample :
    loadDevices emptyBridge (some []) (some []) [("s1", sceneZeroLight)] =
      Except.error PhueErr.SelectorError := by
  rfl

/-- C4, counterexample: the light loaded from a response entry named Kitchen
is stored under the lower-cased name kitchen, and the query Kitchen, equal to
the stored name up to letter case, fails with NoSuchLight rather than
succeeding case-insensitively. -/
theorem C4_counterexample :
    loadDevices emptyBridge (some []) (some [(1, kitchenJson)]) [] =
      Except.ok bridgeKitchen ∧
    (mkLight 1 kitchenJson).name = "kitchen" ∧
    pyLower "Kitchen" = "kitchen" ∧
    Bridge.light bridgeKitchen 0 "Kitchen" = Except.error PhueErr.NoSuchLight := by
  exact ⟨rfl, rfl, rfl, rfl⟩

/-- C3, amended: light and scene raise SelectorError when called with neither
selector, but group performs an id lookup with the default id zero instead,
returning the stored group zero when present and raising NoSuchGroup
otherwise; it never raises SelectorError. -/
theorem C3_amended (b : Bridge) :
    Bridge.light b 0 "" = Except.error PhueErr.SelectorError ∧
    Bridge.scene b "" "" = Except.error PhueErr.SelectorError ∧
    Bridge.group b 0 "" ≠ Except.error PhueErr.SelectorError ∧
    (∀ g, alistFind b.groups 0 = some g → Bridge.group b 0 "" = Except.ok g) ∧
    (alistFind b.groups 0 = none →
      Bridge.group b 0 "" = Except.error PhueErr.NoSuchGroup) := by
  refine ⟨rfl, rfl, ?_, ?_, ?_⟩
  · simp only [Bridge.group]
    cases h : alistFind b.groups 0 <;> simp [h]
  · intro g h
    simp [Bridge.group, h]
  · intro h
    simp [Bridge.group, h]

theorem C3_amended_witness :
    Bridge.light emptyBridge 0 "" = Except.error PhueErr.SelectorError ∧
    Bridge.group emptyBridge 0 "" = Except.error PhueErr.NoSuchGroup := by
  exact ⟨(C3_amended emptyBridge).1, (C3_amended emptyBridge).2.2.2.2 rfl⟩

theorem scanByName_append {κ α : Type} (nameOf : α → String) (pre suf : List (κ × α))
    (k : κ) (x : α) (nm : String)
    (hpre : ∀ p ∈ pre, nameOf p.2 ≠ nm) (hx : nameOf x = nm) :
    scanByName nameOf (pre ++ (k, x) :: suf) nm = some x := by
  induction pre with
  | nil => simp [scanByName, hx]
  | cons hd tl ih =>
    obtain ⟨k0, x0⟩ := hd
    have h0 : nameOf x0 ≠ nm := hpre (k0, x0) (by simp)
    simp only [List.cons_append, scanByName, if_neg h0]
    exact ih (fun p hp => hpre p (by simp [hp]))

theorem scanByName_none {κ α : Type} (nameOf : α → String) (m : List (κ × α)) (nm : String)
    (h : ∀ p ∈ m, nameOf p.2 ≠ nm) : scanByName nameOf m nm = none := by
  induction m with
  | nil => rfl
  | cons hd tl ih =>
    obtain ⟨k0, x0⟩ := hd
    have h0 : nameOf x0 ≠ nm := h (k0, x0) (by simp)
    simp only [scanByName, if_neg h0]
    exact ih (fun p hp => h p (by simp [hp]))

/-- C4, amended: light and group names are lower-cased at load time, but the
query is compared verbatim, so lookup by name succeeds exactly when the query
equals the stored lower-cased name, returning the first match in insertion
order, and raises the kind specific not found error when no stored name equals
the query exactly. -/
theorem C4_amended :
    (∀ (b : Bridge) (pre suf : List (Int × Light)) (k : Int) (l : Light) (nm : String),
      nm ≠ "" → (∀ p ∈ pre, p.2.name ≠ nm) → l.name = nm →
      Bridge.light { b with lights := pre ++ (k, l) :: suf } 0 nm = Except.ok l) ∧
    (∀ (b : Bridge) (preg sufg : List (Int × Group)) (kg : Int) (g : Group) (nm : String),
      nm ≠ "" → (∀ p ∈ preg, p.2.name ≠ nm) → g.name = nm →
      Bridge.group { b with groups := preg ++ (kg, g) :: sufg } 0 nm = Except.ok g) ∧
    (∀ (b : Bridge) (nm : String), nm ≠ "" → (∀ p ∈ b.lights, p.2.name ≠ nm) →
      Bridge.light b 0 nm = Except.error PhueErr.NoSuchLight) ∧
    (∀ (b : Bridge) (nm : String), nm ≠ "" → (∀ p ∈ b.groups, p.2.name ≠ nm) →
      Bridge.group b 0 nm = Except.error PhueErr.NoSuchGroup) ∧
    (∀ (lid : Int) (d : LightJson), (mkLight lid d).name = pyLower d.name) ∧
    (∀ (gid : Int) (d : GroupJson), (mkGroup gid d).name = pyLower d.name) := by
  refine ⟨?_, ?_, ?_, ?_, fun lid d => rfl, fun gid d => rfl⟩
  · intro b pre suf k l nm hnm hpre hl
    have hscan := scanByName_append Light.name pre suf k l nm hpre hl
    simp [Bridge.light, hnm, hscan]
  · intro b preg sufg kg g nm hnm hpre hg
    have hscan := scanByName_append Group.name preg sufg kg g nm hpre hg
    simp [Bridge.group, hnm, hscan]
  · intro b nm hnm hnone
    have hscan := scanByName_none Light.name b.lights nm hnone
    simp [Bridge.light, hnm, hscan]
  · intro b nm hnm hnone
    have hscan := scanByName_none Group.name b.groups nm hnone
    simp [Bridge.group, hnm, hscan]

theorem C4_amended_witness :
    Bridge.light { emptyBridge with lights := [(1, sofaLight)] } 0 "sofa" =
      Except.ok sofaLight := by
  exact C4_amended.1 emptyBridge [] [] 1 sofaLight "sofa" (by decide)
    (fun p hp => absurd hp (List.not_mem_nil p)) rfl

/-- C7, counterexample: the colormode setter invoked on an unreachable light
whose state dict has no colormode key returns without raising and without any
network call, so not every mutator of an unreachable light raises the not
reachable error. -/
theorem C7_counterexample :
    Light.setColormode unreachLight "hs" = (none, unreachLight, []) ∧
    (none : Option PhueErr) ≠ some PhueErr.LightNotReachable := by
  refine ⟨rfl, ?_⟩
  intro h
  cases h

/-- C7, amended: on a light whose state has reachable false every mutator
issues zero network calls, and every mutator raises LightNotReachable, with
the one exception of the colormode setter on a light whose state has no
colormode key, which returns silently. -/
theorem C7_amended (l : Light) (h : l.state.reachable = false) (s1 s2 s3 : String)
    (v : Int) (p : Rat × Rat) :
    ((Light.turnOn l).1 = some PhueErr.LightNotReachable ∧ (Light.turnOn l).2.2 = []) ∧
    ((Light.off l).1 = some PhueErr.LightNotReachable ∧ (Light.off l).2.2 = []) ∧
    ((Light.alert l s1).1 = some PhueErr.LightNotReachable ∧
      (Light.alert l s1).2.2 = []) ∧
    ((Light.effect l s2).1 = some PhueErr.LightNotReachable ∧
      (Light.effect l s2).2.2 = []) ∧
    ((Light.setBrightness l v).1 = some PhueErr.LightNotReachable ∧
      (Light.setBrightness l v).2.2 = []) ∧
    ((Light.setSaturation l v).1 = some PhueErr.LightNotReachable ∧
      (Light.setSaturation l v).2.2 = []) ∧
    ((Light.setHue l v).1 = some PhueErr.LightNotReachable ∧
      (Light.setHue l v).2.2 = []) ∧
    ((Light.setXY l p).1 = some PhueErr.LightNotReachable ∧
      (Light.setXY l p).2.2 = []) ∧
    ((Light.setMired l v).1 = some PhueErr.LightNotReachable ∧
      (Light.setMired l v).2.2 = []) ∧
    ((Light.delete l).1 = some PhueErr.LightNotReachable ∧
      (Light.delete l).2.2 = []) ∧
    (l.state.colormode ≠ none →
      (Light.setColormode l s3).1 = some PhueErr.LightNotReachable ∧
      (Light.setColormode l s3).2.2 = []) ∧
    (l.state.colormode = none → Light.setColormode l s3 = (none, l, [])) := by
  refine ⟨?_, ?_, ?_, ?_, ?_, ?_, ?_, ?_, ?_, ?_, ?_, ?_⟩
  · exact ⟨by simp [Light.turnOn, Light.request, h], by simp [Light.turnOn, Light.request, h]⟩
  · exact ⟨by simp [Light.off, Light.request, h], by simp [Light.off, Light.request, h]⟩
  · exact ⟨by simp [Light.alert, Light.request, h], by simp [Light.alert, Light.request, h]⟩
  · exact ⟨by simp [Light.effect, Light.request, h], by simp [Light.effect, Light.request, h]⟩
  · by_cases hv : v = 0
    · subst hv
      constructor
      · simp [Light.setBrightness, Light.off, Light.request, h]
      · simp [Light.setBrightness, Light.off, Light.request, h]
    · constructor
      · simp [Light.setBrightness, Light.request, h, hv]
      · simp [Light.setBrightness, Light.request, h, hv]
  · exact ⟨by simp [Light.setSaturation, Light.request, h],
      by simp [Light.setSaturation, Light.request, h]⟩
  · exact ⟨by simp [Light.setHue, Light.request, h],
      by simp [Light.setHue, Light.request, h]⟩
  · exact ⟨by simp [Light.setXY, Light.request, h],
      by simp [Light.setXY, Light.request, h]⟩
  · exact ⟨by simp [Light.setMired, Light.request, h],
      by simp [Light.setMired, Light.request, h]⟩
  · exact ⟨by simp [Light.delete, Light.request, h],
      by simp [Light.delete, Light.request, h]⟩
  · intro hcm
    obtain ⟨cm, hcmv⟩ := Option.ne_none_iff_exists.mp hcm
    constructor
    · simp [Light.setColormode, ← hcmv, Light.request, h]
    · simp [Light.setColormode, ← hcmv, Light.request, h]
  · intro hcm
    simp [Light.setColormode, hcm]

theorem C7_amended_witness :
    (Light.turnOn unreachLight).1 = some PhueErr.LightNotReachable ∧
    Light.setColormode unreachLight "abc" = (none, unreachLight, []) := by
  have hthm := C7_amended unreachLight rfl "a" "b" "abc" 7 (0, 0)
  exact ⟨hthm.1.1, hthm.2.2.2.2.2.2.2.2.2.2.2 rfl⟩

theorem sortedMiddle_low (v : Int) (h : v < 1) : sortedMiddle 1 v 254 = 1 := by
  unfold sortedMiddle
  omega

theorem sortedMiddle_high (v : Int) (h : 254 < v) : sortedMiddle 1 v 254 = 254 := by
  unfold sortedMiddle
  omega

theorem sortedMiddle_mid (v : Int) (h1 : 1 ≤ v) (h2 : v ≤ 254) :
    sortedMiddle 1 v 254 = v := by
  unfold sortedMiddle
  omega

theorem slashPrefixed_concat (s : String) : slashPrefixed ("/" ++ s) = true := by
  cases s with
  | mk data => rfl

theorem slashPrefixed_concat2 (s t : String) :
    slashPrefixed ("/" ++ s ++ t) = true := by
  cases s with
  | mk ds =>
    cases t with
    | mk dt => rfl

/-- C6: brightness setters of Light and Group. A value of zero issues the off
PUT instead of a brightness PUT and caches brightness zero; a nonzero value
below one is cached and transmitted as one; a value above two hundred fifty
four is cached and transmitted as two hundred fifty four; an in range value is
cached and transmitted unchanged. -/
theorem C6_theorem (l : Light) (g : Group) (v : Int)
    (hr : l.state.reachable = true) (hbl : l.hasBridge = true)
    (hbg : g.hasBridge = true) :
    (v = 0 →
      Light.setBrightness l v =
        (none, { l with state := { l.state with bri := 0 } },
         [⟨"/lights" ++ ("/" ++ toString l.id ++ "/state"), "PUT",
           ReqBody.onVal false⟩]) ∧
      Group.setBrightness g v =
        ({ g with state := { g.state with any_on := false, all_on := false },
                  action := { g.action with bri := 0 } },
         [⟨"/groups" ++ ("/" ++ toString g.id ++ "/action"), "PUT",
           ReqBody.onVal false⟩])) ∧
    (v ≠ 0 → v < 1 →
      Light.setBrightness l v =
        (none, { l with state := { l.state with bri := 1 } },
         [⟨"/lights" ++ ("/" ++ toString l.id ++ "/state"), "PUT",
           ReqBody.bri 1⟩]) ∧
      Group.setBrightness g v =
        ({ g with action := { g.action with bri := 1 } },
         [⟨"/groups" ++ ("/" ++ toString g.id ++ "/action"), "PUT",
           ReqBody.bri 1⟩])) ∧
    (254 < v →
      Light.setBrightness l v =
        (none, { l with state := { l.state with bri := 254 } },
         [⟨"/lights" ++ ("/" ++ toString l.id ++ "/state"), "PUT",
           ReqBody.bri 254⟩]) ∧
      Group.setBrightness g v =
        ({ g with action := { g.action with bri := 254 } },
         [⟨"/groups" ++ ("/" ++ toString g.id ++ "/action"), "PUT",
           ReqBody.bri 254⟩])) ∧
    (1 ≤ v → v ≤ 254 →
      Light.setBrightness l v =
        (none, { l with state := { l.state with bri := v } },
         [⟨"/lights" ++ ("/" ++ toString l.id ++ "/state"), "PUT",
           ReqBody.bri v⟩]) ∧
      Group.setBrightness g v =
        ({ g with action := { g.action with bri := v } },
         [⟨"/groups" ++ ("/" ++ toString g.id ++ "/action"), "PUT",
           ReqBody.bri v⟩])) := by
  refine ⟨?_, ?_, ?_, ?_⟩
  · intro hv
    subst hv
    constructor
    · simp [Light.setBrightness, Light.off, Light.request, hr, hbl,
        slashPrefixed_concat2]
    · simp [Group.setBrightness, Group.off, Group.request, hbg,
        slashPrefixed_concat2]
  · intro hv hv1
    have hc := sortedMiddle_low v hv1
    constructor
    · simp [Light.setBrightness, hv, hc, Light.request, hr, hbl,
        slashPrefixed_concat2]
    · have hvg : v ≠ 0 := hv
      simp [Group.setBrightness, hvg, hc, Group.request, hbg,
        slashPrefixed_concat2]
  · intro hv254
    have hv : v ≠ 0 := by omega
    have hc := sortedMiddle_high v hv254
    constructor
    · simp [Light.setBrightness, hv, hc, Light.request, hr, hbl,
        slashPrefixed_concat2]
    · simp [Group.setBrightness, hv, hc, Group.request, hbg,
        slashPrefixed_concat2]
  · intro hv1 hv254
    have hv : v ≠ 0 := by omega
    have hc := sortedMiddle_mid v hv1 hv254
    constructor
    · simp [Light.setBrightness, hv, hc, Light.request, hr, hbl,
        slashPrefixed_concat2]
    · simp [Group.setBrightness, hv, hc, Group.request, hbg,
        slashPrefixed_concat2]

theorem C6_witness :
    (Light.setBrightness brightLight 300).2.1.state.bri = 254 ∧
    (Group.setBrightness brightGroup 300).1.action.bri = 254 := by
  have hthm := C6_theorem brightLight brightGroup 300 rfl rfl rfl
  have h3 := hthm.2.2.1 (by decide)
  constructor
  · rw [h3.1]
  · rw [h3.2]

theorem renameLoop_skip (g : Group) (newName : String) (allow : Bool)
    (pre rest : List RenameAnswer)
    (hpre : ∀ a ∈ pre, ackLookup a ("/groups/" ++ toString g.id ++ "/name") = none) :
    renameLoop g newName allow (pre ++ rest) = renameLoop g newName allow rest := by
  induction pre with
  | nil => rfl
  | cons a tl ih =>
    have ha := hpre a (by simp)
    simp only [List.cons_append, renameLoop, ha]
    exact ih (fun x hx => hpre x (by simp [hx]))

/-- C9: when the rename response array acknowledges the name field of the
group, with earlier elements not acknowledging it, then: an acknowledged name
equal to the requested one updates the local name and returns true; a
different acknowledged name is adopted and true returned when the caller
allows an existing name; otherwise the local name is unchanged, a compensating
rename with the prior name is issued as the only extra request, and false is
returned. -/
theorem C9_theorem (g : Group) (newName : String) (allow : Bool)
    (pre rest : List RenameAnswer) (succ : List (String × String)) (ackName : String)
    (hb : g.hasBridge = true)
    (hpre : ∀ a ∈ pre, ackLookup a ("/groups/" ++ toString g.id ++ "/name") = none)
    (hack : alistFind succ ("/groups/" ++ toString g.id ++ "/name") = some ackName) :
    (ackName = newName →
      Group.rename g newName allow (some (pre ++ some succ :: rest)) =
        ({ g with name := newName }, true,
         [⟨"/groups" ++ ("/" ++ toString g.id), "PUT", ReqBody.name newName⟩])) ∧
    (ackName ≠ newName → allow = true →
      Group.rename g newName allow (some (pre ++ some succ :: rest)) =
        ({ g with name := ackName }, true,
         [⟨"/groups" ++ ("/" ++ toString g.id), "PUT", ReqBody.name newName⟩])) ∧
    (ackName ≠ newName → allow = false →
      Group.rename g newName allow (some (pre ++ some succ :: rest)) =
        (g, false,
         [⟨"/groups" ++ ("/" ++ toString g.id), "PUT", ReqBody.name newName⟩,
          ⟨"/groups" ++ ("/" ++ toString g.id), "PUT", ReqBody.name g.name⟩])) := by
  have hskip := renameLoop_skip g newName allow pre (some succ :: rest) hpre
  have hhead : ackLookup (some succ) ("/groups/" ++ toString g.id ++ "/name") =
      some ackName := hack
  refine ⟨?_, ?_, ?_⟩
  · intro hEq
    subst hEq
    simp [Group.rename, hb, hskip, renameLoop, hhead, Group.request,
      slashPrefixed_concat]
  · intro hNe hallow
    subst hallow
    simp [Group.rename, hb, hskip, renameLoop, hhead, hNe, Group.request,
      slashPrefixed_concat]
  · intro hNe hallow
    subst hallow
    simp [Group.rename, hb, hskip, renameLoop, hhead, hNe, Group.request,
      slashPrefixed_concat]

theorem C9_witness :
    Group.rename renameGroup "tv room" false (some renameAnswers) =
      ({ renameGroup with name := "tv room" }, true,
       [⟨"/groups/3", "PUT", ReqBody.name "tv room"⟩]) := by
  have hpre : ∀ a ∈ ([none] : List RenameAnswer),
      ackLookup a ("/groups/" ++ toString renameGroup.id ++ "/name") = none := by
    intro a ha
    rw [List.mem_singleton] at ha
    subst ha
    rfl
  have hthm := C9_theorem renameGroup "tv room" false [none] []
    [("/groups/3/name", "tv room")] "tv room" rfl hpre rfl
  exact hthm.1 rfl

theorem linkLights_spec (sid : String) (ls : List Int) (b : Bridge) (h0 : 0 ∉ ls) :
    ∃ b2, linkLights b sid ls = Except.ok b2 ∧
      b2.groups = b.groups ∧ b2.scenes = b.scenes ∧
      (∀ lid, alistFind b.lights lid = none → alistFind b2.lights lid = none) ∧
      (∀ lid l, alistFind b.lights lid = some l →
        ∃ l2, alistFind b2.lights lid = some l2 ∧ l.myScenes ⊆ l2.myScenes ∧
          (lid ∈ ls → sid ∈ l2.myScenes)) := by
  induction ls generalizing b with
  | nil =>
    refine ⟨b, rfl, rfl, rfl, fun lid hl => hl, ?_⟩
    intro lid l hl
    exact ⟨l, hl, List.Subset.refl _, fun hmem => absurd hmem (List.not_mem_nil _)⟩
  | cons lid0 rest ih =>
    have hlid0 : ¬ lid0 = 0 := fun hc => h0 (by simp [hc])
    have h0r : 0 ∉ rest := fun hc => h0 (by simp [hc])
    cases hfind : alistFind b.lights lid0 with
    | none =>
      have hlight : b.light lid0 "" = Except.error PhueErr.NoSuchLight := by
        simp [Bridge.light, hlid0, hfind]
      obtain ⟨b2, hrun, hg, hs, hnone, hsome⟩ := ih b h0r
      refine ⟨b2, ?_, hg, hs, hnone, ?_⟩
      · simp only [linkLights, hlight]
        exact hrun
      · intro lid l hl
        obtain ⟨l2, h1, h2, h3⟩ := hsome lid l hl
        refine ⟨l2, h1, h2, ?_⟩
        intro hmem
        rcases List.mem_cons.mp hmem with hEq | hmemr
        · rw [hEq, hfind] at hl
          cases hl
        · exact h3 hmemr
    | some l0 =>
      have hlight : b.light lid0 "" = Except.ok l0 := by
        simp [Bridge.light, hlid0, hfind]
      obtain ⟨b2, hrun, hg, hs, hnone, hsome⟩ :=
        ih { b with lights := appendSceneToLight b.lights lid0 sid } h0r
      have hfindmod : ∀ lid, alistFind (appendSceneToLight b.lights lid0 sid) lid =
          if lid = lid0 then
            (alistFind b.lights lid0).map
              (fun l => { l with myScenes := l.myScenes ++ [sid] })
          else alistFind b.lights lid := by
        intro lid
        simp [appendSceneToLight, alistFind_modify]
      refine ⟨b2, ?_, hg, hs, ?_, ?_⟩
      · simp only [linkLights, hlight]
        exact hrun
      · intro lid hl
        apply hnone
        show alistFind (appendSceneToLight b.lights lid0 sid) lid = none
        rw [hfindmod lid]
        by_cases hE : lid = lid0
        · rw [hE] at hl
          rw [hl] at hfind
          cases hfind
        · simp [hE, hl]
      · intro lid l hl
        by_cases hE : lid = lid0
        · have hl2 := hl
          rw [hE, hfind] at hl2
          injection hl2 with hleq
          subst hleq
          have hm2 : alistFind (appendSceneToLight b.lights lid0 sid) lid =
              some { l0 with myScenes := l0.myScenes ++ [sid] } := by
            rw [hfindmod lid, if_pos hE, hfind]
            rfl
          obtain ⟨l2, h1, h2, h3⟩ := hsome lid _ hm2
          refine ⟨l2, h1, ?_, fun _ => ?_⟩
          · intro x hx
            exact h2 (by simp [hx])
          · exact h2 (by simp)
        · have hm2 : alistFind (appendSceneToLight b.lights lid0 sid) lid = some l := by
            rw [hfindmod lid, if_neg hE]
            exact hl
          obtain ⟨l2, h1, h2, h3⟩ := hsome lid l hm2
          refine ⟨l2, h1, h2, ?_⟩
          intro hmem
          rcases List.mem_cons.mp hmem with hEq | hmemr
          · exact absurd hEq hE
          · exact h3 hmemr

/-- C8, amended: during scene loading a GroupScene referencing an unknown
group id raises nothing, creates no group entry and only inserts the scene; a
LightScene named exactly Last on state is cross-linked to no light; any other
LightScene whose referenced light ids avoid the id zero raises nothing,
appends the scene id to the myScenes of every referenced known light and
silently skips unknown ids, while a referenced id zero makes the light lookup
raise an uncaught SelectorError. -/
theorem C8_amended (b : Bridge) (sid : String) (d : SceneJson) :
    (d.type? = some "GroupScene" → alistFind b.groups d.group = none →
      linkScene b sid d =
        Except.ok { b with scenes := alistInsert b.scenes sid (mkScene sid d) }) ∧
    (d.type? = some "LightScene" → d.name = "Last on state" →
      linkScene b sid d =
        Except.ok { b with scenes := alistInsert b.scenes sid (mkScene sid d) }) ∧
    (d.type? = some "LightScene" → d.name ≠ "Last on state" → 0 ∉ d.lights →
      ∃ b2, linkScene b sid d = Except.ok b2 ∧
        b2.groups = b.groups ∧
        b2.scenes = alistInsert b.scenes sid (mkScene sid d) ∧
        (∀ lid, alistFind b.lights lid = none → alistFind b2.lights lid = none) ∧
        (∀ lid l, lid ∈ d.lights → alistFind b.lights lid = some l →
          ∃ l2, alistFind b2.lights lid = some l2 ∧ sid ∈ l2.myScenes)) := by
  refine ⟨?_, ?_, ?_⟩
  · intro ht hg
    simp [linkScene, ht, Bridge.group, hg]
  · intro ht hn
    simp [linkScene, ht, hn]
  · intro ht hn h0
    obtain ⟨b2, hrun, hg, hs, hnone, hsome⟩ :=
      linkLights_spec sid d.lights
        { b with scenes := alistInsert b.scenes sid (mkScene sid d) } h0
    refine ⟨b2, ?_, hg, hs, hnone, ?_⟩
    · simp [linkScene, ht, hn]
      exact hrun
    · intro lid l hmem hl
      obtain ⟨l2, h1, h2, h3⟩ := hsome lid l hl
      exact ⟨l2, h1, h3 hmem⟩

theorem C8_amended_witness :
    linkScene emptyBridge "s2" orphanGroupScene =
      Except.ok { emptyBridge with
        scenes := alistInsert emptyBridge.scenes "s2" (mkScene "s2" orphanGroupScene) } := by
  exact (C8_amended emptyBridge "s2" orphanGroupScene).1 rfl rfl

theorem alistFind_insert_isSome {κ α : Type} [DecidableEq κ] (m : List (κ × α))
    (k k2 : κ) (v : α) (h : (alistFind m k2).isSome) :
    (alistFind (alistInsert m k v) k2).isSome := by
  rw [alistFind_insert]
  by_cases hE : k2 = k <;> simp [hE, h]

theorem alistFind_modify_isSome {κ α : Type} [DecidableEq κ] (m : List (κ × α))
    (k k2 : κ) (f : α → α) (h : (alistFind m k2).isSome) :
    (alistFind (alistModify m k f) k2).isSome := by
  rw [alistFind_modify]
  by_cases hE : k2 = k
  · rw [hE] at h
    obtain ⟨v, hv⟩ := Option.isSome_iff_exists.mp h
    simp [hE, hv]
  · simp [hE, h]

theorem insertAll_isSome {κ α β : Type} [DecidableEq κ] (mk : κ → β → α)
    (ans : List (κ × β)) (m : List (κ × α)) (k : κ) (h : (alistFind m k).isSome) :
    (alistFind (insertAll mk m ans) k).isSome := by
  induction ans generalizing m with
  | nil => exact h
  | cons hd tl ih =>
    obtain ⟨k0, d0⟩ := hd
    simp only [insertAll]
    exact ih _ (alistFind_insert_isSome _ _ _ _ h)

theorem linkLights_mono (sid : String) (ls : List Int) (b b2 : Bridge)
    (h : linkLights b sid ls = Except.ok b2) :
    b2.groups = b.groups ∧ b2.scenes = b.scenes ∧
    (∀ k, (alistFind b.lights k).isSome → (alistFind b2.lights k).isSome) := by
  induction ls generalizing b with
  | nil =>
    injection h with h2
    subst h2
    exact ⟨rfl, rfl, fun k hk => hk⟩
  | cons lid0 rest ih =>
    cases hl : b.light lid0 "" with
    | ok l0 =>
      simp only [linkLights, hl] at h
      obtain ⟨hg, hs, hm⟩ := ih _ h
      refine ⟨hg, hs, ?_⟩
      intro k hk
      apply hm
      show (alistFind (appendSceneToLight b.lights lid0 sid) k).isSome
      exact alistFind_modify_isSome _ _ _ _ hk
    | error e =>
      cases e <;> simp only [linkLights, hl] at h
      case NoSuchLight => exact ih _ h
      all_goals cases h

theorem linkScene_mono (b : Bridge) (sid : String) (d : SceneJson) (b2 : Bridge)
    (h : linkScene b sid d = Except.ok b2) :
    (∀ k, (alistFind b.groups k).isSome → (alistFind b2.groups k).isSome) ∧
    (∀ k, (alistFind b.lights k).isSome → (alistFind b2.lights k).isSome) ∧
    (∀ k, (alistFind b.scenes k).isSome → (alistFind b2.scenes k).isSome) := by
  cases ht : d.type? with
  | none =>
    simp only [linkScene, ht] at h
    injection h with h2
    subst h2
    exact ⟨fun k hk => hk, fun k hk => hk,
      fun k hk => alistFind_insert_isSome _ _ _ _ hk⟩
  | some ty =>
    by_cases hG : ty = "GroupScene"
    · cases hfg : alistFind b.groups d.group with
      | some g0 =>
        have hgr : Bridge.group
            { b with scenes := alistInsert b.scenes sid (mkScene sid d) } d.group "" =
            Except.ok g0 := by
          simp [Bridge.group, hfg]
        simp only [linkScene, ht, if_pos hG, hgr] at h
        injection h with h2
        subst h2
        exact ⟨fun k hk => alistFind_modify_isSome _ _ _ _ hk, fun k hk => hk,
          fun k hk => alistFind_insert_isSome _ _ _ _ hk⟩
      | none =>
        have hgr : Bridge.group
            { b with scenes := alistInsert b.scenes sid (mkScene sid d) } d.group "" =
            Except.error PhueErr.NoSuchGroup := by
          simp [Bridge.group, hfg]
        simp only [linkScene, ht, if_pos hG, hgr] at h
        injection h with h2
        subst h2
        exact ⟨fun k hk => hk, fun k hk => hk,
          fun k hk => alistFind_insert_isSome _ _ _ _ hk⟩
    · by_cases hL : ty = "LightScene" ∧ d.name ≠ "Last on state"
      · simp only [linkScene, ht, if_neg hG, if_pos hL] at h
        obtain ⟨hg, hs, hm⟩ := linkLights_mono sid d.lights _ b2 h
        refine ⟨fun k hk => ?_, fun k hk => hm k hk, fun k hk => ?_⟩
        · rw [hg]
          exact hk
        · rw [hs]
          exact alistFind_insert_isSome _ _ _ _ hk
      · simp only [linkScene, ht, if_neg hG, if_neg hL] at h
        injection h with h2
        subst h2
        exact ⟨fun k hk => hk, fun k hk => hk,
          fun k hk => alistFind_insert_isSome _ _ _ _ hk⟩

theorem loadScenes_mono (sR : List (String × SceneJson)) (b b2 : Bridge)
    (h : loadScenes b sR = Except.ok b2) :
    (∀ k, (alistFind b.groups k).isSome → (alistFind b2.groups k).isSome) ∧
    (∀ k, (alistFind b.lights k).isSome → (alistFind b2.lights k).isSome) ∧
    (∀ k, (alistFind b.scenes k).isSome → (alistFind b2.scenes k).isSome) := by
  induction sR generalizing b with
  | nil =>
    injection h with h2
    subst h2
    exact ⟨fun k hk => hk, fun k hk => hk, fun k hk => hk⟩
  | cons hd tl ih =>
    obtain ⟨sid, d⟩ := hd
    cases hls : linkScene b sid d with
    | ok bmid =>
      simp only [loadScenes, hls] at h
      obtain ⟨hg1, hl1, hs1⟩ := linkScene_mono b sid d bmid hls
      obtain ⟨hg2, hl2, hs2⟩ := ih bmid h
      exact ⟨fun k hk => hg2 k (hg1 k hk), fun k hk => hl2 k (hl1 k hk),
        fun k hk => hs2 k (hs1 k hk)⟩
    | error e =>
      simp only [loadScenes, hls] at h
      cases h

/-- C1, amended: loadDevices does not clear the registries; it reinserts group
zero and inserts the entries of the current responses over the existing
mappings, so every group, light or scene entry present before the call is
still present afterwards, including entries absent from the current
responses. -/
theorem C1_amended (b : Bridge) (gR : Option (List (Int × GroupJson)))
    (lR : Option (List (Int × LightJson))) (sR : List (String × SceneJson))
    (b2 : Bridge) (h : loadDevices b gR lR sR = Except.ok b2) :
    (∀ gid, (alistFind b.groups gid).isSome → (alistFind b2.groups gid).isSome) ∧
    (∀ lid, (alistFind b.lights lid).isSome → (alistFind b2.lights lid).isSome) ∧
    (∀ sid, (alistFind b.scenes sid).isSome → (alistFind b2.scenes sid).isSome) := by
  cases gR with
  | none =>
    cases lR with
    | none =>
      simp only [loadDevices] at h
      injection h with h2
      subst h2
      exact ⟨fun gid hg => alistFind_insert_isSome _ _ _ _ hg,
        fun lid hl => hl, fun sid hs => hs⟩
    | some lans =>
      simp only [loadDevices] at h
      obtain ⟨hg2, hl2, hs2⟩ := loadScenes_mono sR _ b2 h
      exact ⟨fun gid hg => hg2 gid (alistFind_insert_isSome _ _ _ _ hg),
        fun lid hl => hl2 lid (insertAll_isSome mkLight lans _ lid hl),
        fun sid hs => hs2 sid hs⟩
  | some gans =>
    cases lR with
    | none =>
      simp only [loadDevices] at h
      injection h with h2
      subst h2
      exact ⟨fun gid hg =>
        insertAll_isSome mkGroup gans _ gid (alistFind_insert_isSome _ _ _ _ hg),
        fun lid hl => hl, fun sid hs => hs⟩
    | some lans =>
      simp only [loadDevices] at h
      obtain ⟨hg2, hl2, hs2⟩ := loadScenes_mono sR _ b2 h
      exact ⟨fun gid hg => hg2 gid
          (insertAll_isSome mkGroup gans _ gid (alistFind_insert_isSome _ _ _ _ hg)),
        fun lid hl => hl2 lid (insertAll_isSome mkLight lans _ lid hl),
        fun sid hs => hs2 sid hs⟩

theorem C1_amended_witness : (alistFind loadedStale.groups 5).isSome = true := by
  have hthm := C1_amended bridgeWithStale (some []) (some []) [] loadedStale rfl
  exact hthm.1 5 rfl

end PhueAPI
